import Mathlib

/-
Verification of the RocksDBFusion server core against its specification.

The development shallowly embeds the server-side code of the repository:
`src/server/src/db_manager.rs` (the engine manager `RocksDBManager`),
`src/server/src/server.rs` (the dispatcher `RocksDBServer`) and
`src/server/src/cache/cache.rs` (the optional write-back cache).  The
underlying storage engine (rust_rocksdb) is opaque per the specification
and is modelled as a deterministic association-list store; engine calls
that can fail independently of the modelled state (the batch commit)
take the engine outcome as an explicit parameter.  serde_json parsing
and serialization are modelled by an executable JSON grammar below
(numbers are modelled as integers; \u escapes are not modelled).
-/

/-- Shallow model of serde_json::Value. -/
inductive Json where
  | null : Json
  | bool (b : Bool) : Json
  | num (n : Int) : Json
  | str (s : String) : Json
  | arr (xs : List Json) : Json
  | obj (fields : List (String × Json)) : Json
deriving Repr

/-- Whitespace accepted by the JSON grammar. -/
def isWs (c : Char) : Bool :=
  c = ' ' || c = '\t' || c = '\n' || c = '\r'

/-- Drops leading JSON whitespace. -/
def skipWs : List Char → List Char
  | [] => []
  | c :: r => if isWs c then skipWs r else c :: r

/-- Reads the body of a JSON string literal after the opening quote,
returning the decoded string and the remaining input. -/
def parseStrBody : List Char → List Char → Option (String × List Char)
  | [], _ => none
  | '\"' :: rest, acc => some (String.mk acc.reverse, rest)
  | '\\' :: c :: rest, acc =>
    if c = '\"' then parseStrBody rest ('\"' :: acc)
    else if c = '\\' then parseStrBody rest ('\\' :: acc)
    else if c = '/' then parseStrBody rest ('/' :: acc)
    else if c = 'n' then parseStrBody rest ('\n' :: acc)
    else if c = 't' then parseStrBody rest ('\t' :: acc)
    else if c = 'r' then parseStrBody rest ('\r' :: acc)
    else none
  | c :: rest, acc => parseStrBody rest (c :: acc)

/-- Decimal digits to a natural number. -/
def digitsVal (ds : List Char) : Nat :=
  ds.foldl (fun n c => 10 * n + (c.toNat - '0'.toNat)) 0

/-- Reads an unsigned JSON integer (floats are outside the model). -/
def parsePosInt (cs : List Char) : Option (Nat × List Char) :=
  let ds := cs.takeWhile Char.isDigit
  let rest := cs.dropWhile Char.isDigit
  if ds.isEmpty then none
  else match rest with
    | '.' :: _ => none
    | 'e' :: _ => none
    | 'E' :: _ => none
    | _ => some (digitsVal ds, rest)

/-- Reads a JSON number (integer subset). -/
def parseNum : List Char → Option (Json × List Char)
  | '-' :: rest =>
    (parsePosInt rest).map (fun p => (Json.num (-(p.1 : Int)), p.2))
  | cs => (parsePosInt cs).map (fun p => (Json.num (p.1 : Int), p.2))

mutual

/-- Fuel-indexed recursive-descent reader for a JSON value. -/
def parseVal : Nat → List Char → Option (Json × List Char)
  | 0, _ => none
  | Nat.succ n, cs =>
    match skipWs cs with
    | '\"' :: rest => (parseStrBody rest []).map (fun p => (Json.str p.1, p.2))
    | '[' :: rest =>
      match skipWs rest with
      | ']' :: r2 => some (Json.arr [], r2)
      | cs2 => (parseElems n cs2).map (fun p => (Json.arr p.1, p.2))
    | '\x7b' :: rest =>
      match skipWs rest with
      | '\x7d' :: r2 => some (Json.obj [], r2)
      | cs2 => (parseMembers n cs2).map (fun p => (Json.obj p.1, p.2))
    | 't' :: 'r' :: 'u' :: 'e' :: rest => some (Json.bool true, rest)
    | 'f' :: 'a' :: 'l' :: 's' :: 'e' :: rest => some (Json.bool false, rest)
    | 'n' :: 'u' :: 'l' :: 'l' :: rest => some (Json.null, rest)
    | cs2 => parseNum cs2

/-- Reads the comma-separated elements of a non-empty array. -/
def parseElems : Nat → List Char → Option (List Json × List Char)
  | 0, _ => none
  | Nat.succ n, cs =>
    match parseVal n cs with
    | none => none
    | some (v, r) =>
      match skipWs r with
      | ',' :: r2 => (parseElems n r2).map (fun p => (v :: p.1, p.2))
      | ']' :: r2 => some ([v], r2)
      | _ => none

/-- Reads the comma-separated members of a non-empty object. -/
def parseMembers : Nat → List Char → Option (List (String × Json) × List Char)
  | 0, _ => none
  | Nat.succ n, cs =>
    match skipWs cs with
    | '\"' :: r =>
      match parseStrBody r [] with
      | none => none
      | some (k, r2) =>
        match skipWs r2 with
        | ':' :: r3 =>
          match parseVal n r3 with
          | none => none
          | some (v, r4) =>
            match skipWs r4 with
            | ',' :: r5 => (parseMembers n r5).map (fun p => ((k, v) :: p.1, p.2))
            | '\x7d' :: r5 => some ([(k, v)], r5)
            | _ => none
        | _ => none
    | _ => none

end

/-- Model of serde_json::from_slice into a Value: the whole input must be
one JSON document (with surrounding whitespace). -/
def parseJson (s : String) : Option Json :=
  match parseVal (s.length + 1) s.data with
  | some (v, r) => if skipWs r = [] then some v else none
  | none => none

/-- Escapes quote and backslash inside a serialized JSON string. -/
def escapeStr : List Char → String
  | [] => ""
  | c :: r =>
    (if c = '\"' then "\\\"" else if c = '\\' then "\\\\" else String.mk [c]) ++ escapeStr r

mutual

/-- Model of serde_json::to_vec on a Value (compact form). -/
def serializeJson : Json → String
  | Json.null => "null"
  | Json.bool true => "true"
  | Json.bool false => "false"
  | Json.num n => toString n
  | Json.str s => "\"" ++ escapeStr s.data ++ "\""
  | Json.arr xs => "[" ++ serializeList xs ++ "]"
  | Json.obj fs => "\x7b" ++ serializeFields fs ++ "\x7d"

/-- Serializes array elements, comma separated. -/
def serializeList : List Json → String
  | [] => ""
  | [x] => serializeJson x
  | x :: y :: r => serializeJson x ++ "," ++ serializeList (y :: r)

/-- Serializes object members, comma separated. -/
def serializeFields : List (String × Json) → String
  | [] => ""
  | [(k, v)] => "\"" ++ escapeStr k.data ++ "\":" ++ serializeJson v
  | (k, v) :: y :: r =>
    "\"" ++ escapeStr k.data ++ "\":" ++ serializeJson v ++ "," ++ serializeFields (y :: r)

end

/-- First-match lookup in an association list (model of map lookup). -/
def aget {α β : Type} [DecidableEq α] : List (α × β) → α → Option β
  | [], _ => none
  | (x, b) :: t, a => if x = a then some b else aget t a

/-- Map update: binds the key, removing any previous binding. -/
def aset {α β : Type} [DecidableEq α] (l : List (α × β)) (a : α) (b : β) : List (α × β) :=
  (a, b) :: l.filter (fun p => decide (p.1 ≠ a))

/-- Map removal of a key. -/
def adel {α β : Type} [DecidableEq α] (l : List (α × β)) (a : α) : List (α × β) :=
  l.filter (fun p => decide (p.1 ≠ a))

/-- Object-member lookup (serde Map preserves insertion order). -/
def memGet (fs : List (String × Json)) (k : String) : Option Json :=
  aget fs k

/-- Object-member write: replaces in place, or appends a new member. -/
def memSet : List (String × Json) → String → Json → List (String × Json)
  | [], k, v => [(k, v)]
  | (k0, v0) :: t, k, v =>
    if k0 = k then (k0, v) :: t else (k0, v0) :: memSet t k v

/-- Object-member removal. -/
def memDel (fs : List (String × Json)) (k : String) : List (String × Json) :=
  fs.filter (fun p => decide (p.1 ≠ k))

/-- RFC 6901 array-index token: digits with no leading zero. -/
def tokToIndex (t : String) : Option Nat :=
  if t = "0" then some 0
  else match t.data with
    | [] => none
    | c :: r =>
      if c = '0' then none
      else if (c :: r).all Char.isDigit then some (digitsVal (c :: r)) else none

/-- Unescapes one RFC 6901 reference token (tilde-one to slash,
tilde-zero to tilde). -/
def unescapeChars : List Char → List Char
  | [] => []
  | '~' :: '1' :: r => '/' :: unescapeChars r
  | '~' :: '0' :: r => '~' :: unescapeChars r
  | c :: r => c :: unescapeChars r

/-- Splits on the slash separator (one-or-more tokens). -/
def splitSlash : List Char → List (List Char)
  | [] => [[]]
  | '/' :: r => [] :: splitSlash r
  | c :: r =>
    match splitSlash r with
    | [] => [[c]]
    | t :: ts => (c :: t) :: ts

/-- Splits an RFC 6901 JSON Pointer into reference tokens; none if the
pointer is non-empty and does not start with a slash. -/
def pointerTokens (s : String) : Option (List String) :=
  match s.data with
  | [] => some []
  | '/' :: r => some ((splitSlash r).map (fun t => String.mk (unescapeChars t)))
  | _ => none

/-- The RFC 6902 operations covered by the model (json_patch's move, copy
are outside the modelled operation set). -/
inductive PatchOp where
  | add (path : List String) (v : Json) : PatchOp
  | remove (path : List String) : PatchOp
  | replace (path : List String) (v : Json) : PatchOp
  | test (path : List String) (v : Json) : PatchOp
deriving Repr

/-- Inserts at an index of an array, allowing index = length. -/
def insertIdx : List Json → Nat → Json → Option (List Json)
  | xs, 0, v => some (v :: xs)
  | [], Nat.succ _, _ => none
  | x :: xs, Nat.succ i, v => (insertIdx xs i v).map (fun l => x :: l)

/-- Replaces the element at an index of an array. -/
def setIdx : List Json → Nat → Json → Option (List Json)
  | [], _, _ => none
  | _ :: xs, 0, v => some (v :: xs)
  | x :: xs, Nat.succ i, v => (setIdx xs i v).map (fun l => x :: l)

/-- Removes the element at an index of an array. -/
def removeIdx : List Json → Nat → Option (List Json)
  | [], _ => none
  | _ :: xs, 0 => some xs
  | x :: xs, Nat.succ i => (removeIdx xs i).map (fun l => x :: l)

/-- RFC 6902 add at a pointer; the end-of-array token is the dash. -/
def addAt : Json → List String → Json → Option Json
  | _, [], v => some v
  | Json.obj fs, [t], v => some (Json.obj (memSet fs t v))
  | Json.arr xs, [t], v =>
    if t = "-" then some (Json.arr (xs ++ [v]))
    else (tokToIndex t).bind (fun i => (insertIdx xs i v).map Json.arr)
  | Json.obj fs, t :: t2 :: r, v =>
    (memGet fs t).bind (fun c =>
      (addAt c (t2 :: r) v).map (fun c2 => Json.obj (memSet fs t c2)))
  | Json.arr xs, t :: t2 :: r, v =>
    (tokToIndex t).bind (fun i =>
      (xs.get? i).bind (fun c =>
        (addAt c (t2 :: r) v).bind (fun c2 => (setIdx xs i c2).map Json.arr)))
  | _, _ :: _, _ => none

/-- RFC 6902 remove at a pointer; the root cannot be removed. -/
def removeAt : Json → List String → Option Json
  | _, [] => none
  | Json.obj fs, [t] =>
    if (memGet fs t).isSome then some (Json.obj (memDel fs t)) else none
  | Json.arr xs, [t] => (tokToIndex t).bind (fun i => (removeIdx xs i).map Json.arr)
  | Json.obj fs, t :: t2 :: r =>
    (memGet fs t).bind (fun c =>
      (removeAt c (t2 :: r)).map (fun c2 => Json.obj (memSet fs t c2)))
  | Json.arr xs, t :: t2 :: r =>
    (tokToIndex t).bind (fun i =>
      (xs.get? i).bind (fun c =>
        (removeAt c (t2 :: r)).bind (fun c2 => (setIdx xs i c2).map Json.arr)))
  | _, _ :: _ => none

/-- RFC 6902 replace at a pointer; the target must exist. -/
def replaceAt : Json → List String → Json → Option Json
  | _, [], v => some v
  | Json.obj fs, [t], v =>
    if (memGet fs t).isSome then some (Json.obj (memSet fs t v)) else none
  | Json.arr xs, [t], v => (tokToIndex t).bind (fun i => (setIdx xs i v).map Json.arr)
  | Json.obj fs, t :: t2 :: r, v =>
    (memGet fs t).bind (fun c =>
      (replaceAt c (t2 :: r) v).map (fun c2 => Json.obj (memSet fs t c2)))
  | Json.arr xs, t :: t2 :: r, v =>
    (tokToIndex t).bind (fun i =>
      (xs.get? i).bind (fun c =>
        (replaceAt c (t2 :: r) v).bind (fun c2 => (setIdx xs i c2).map Json.arr)))
  | _, _ :: _, _ => none

/-- Reads the value at a pointer. -/
def getAt : Json → List String → Option Json
  | doc, [] => some doc
  | Json.obj fs, t :: r => (memGet fs t).bind (fun c => getAt c r)
  | Json.arr xs, t :: r =>
    (tokToIndex t).bind (fun i => (xs.get? i).bind (fun c => getAt c r))
  | _, _ :: _ => none

mutual

/-- Value equality used by the test operation (object members compared in
insertion order in this model). -/
def jsonBeq : Json → Json → Bool
  | Json.null, Json.null => true
  | Json.bool a, Json.bool b => a = b
  | Json.num a, Json.num b => a = b
  | Json.str a, Json.str b => a = b
  | Json.arr a, Json.arr b => jsonListBeq a b
  | Json.obj a, Json.obj b => jsonFieldsBeq a b
  | _, _ => false

/-- Element-wise equality of JSON arrays. -/
def jsonListBeq : List Json → List Json → Bool
  | [], [] => true
  | a :: ar, b :: br => jsonBeq a b && jsonListBeq ar br
  | _, _ => false

/-- Member-wise equality of JSON objects. -/
def jsonFieldsBeq : List (String × Json) → List (String × Json) → Bool
  | [], [] => true
  | (ka, va) :: ar, (kb, vb) :: br => ka = kb && jsonBeq va vb && jsonFieldsBeq ar br
  | _, _ => false

end

/-- Applies one RFC 6902 operation to a document. -/
def applyOp (doc : Json) : PatchOp → Option Json
  | PatchOp.add path v => addAt doc path v
  | PatchOp.remove path => removeAt doc path
  | PatchOp.replace path v => replaceAt doc path v
  | PatchOp.test path v =>
    match getAt doc path with
    | some w => if jsonBeq w v then some doc else none
    | none => none

/-- Model of json_patch::patch: the operation list is applied in order and
is atomic — on any failure the document is restored (none). -/
def applyPatch (doc : Json) : List PatchOp → Option Json
  | [] => some doc
  | op :: r => (applyOp doc op).bind (fun d2 => applyPatch d2 r)

/-- Decodes one serde PatchOperation from its JSON form. -/
def opOfJson (j : Json) : Option PatchOp :=
  match j with
  | Json.obj fs =>
    let path := match memGet fs "path" with
      | some (Json.str s) => pointerTokens s
      | _ => none
    match memGet fs "op" with
    | some (Json.str "add") =>
      path.bind (fun p => (memGet fs "value").map (PatchOp.add p))
    | some (Json.str "remove") => path.map PatchOp.remove
    | some (Json.str "replace") =>
      path.bind (fun p => (memGet fs "value").map (PatchOp.replace p))
    | some (Json.str "test") =>
      path.bind (fun p => (memGet fs "value").map (PatchOp.test p))
    | _ => none
  | _ => none

/-- Decodes a JSON array of PatchOperations. -/
def opsOfJson (j : Json) : Option (List PatchOp) :=
  match j with
  | Json.arr xs => xs.mapM opOfJson
  | _ => none

/-- Model of serde_json::from_slice::<Vec<PatchOperation>> on one operand. -/
def parseOperand (s : String) : Option (List PatchOp) :=
  (parseJson s).bind opsOfJson

/-- The operand loop of json_merge (db_manager.rs lines 30-39): each
operand that deserializes is applied atomically; a failing patch
application is logged and skipped, leaving the document as it was; an
operand that does not deserialize is logged and skipped. -/
def mergeOps (doc : Json) : List String → Json
  | [] => doc
  | op :: rest =>
    match parseOperand op with
    | some ops =>
      match applyPatch doc ops with
      | some d2 => mergeOps d2 rest
      | none => mergeOps doc rest
    | none => mergeOps doc rest

/-- Model of json_merge (db_manager.rs lines 19-48): the existing value
parses as JSON defaulting to the empty array, the operands are folded
over it, and the final document is serialized (serialization of a Value
cannot fail, so the result is always present). -/
def json_merge (existing_val : Option String) (operands : List String) : Option String :=
  let doc := match existing_val with
    | some val => (parseJson val).getD (Json.arr [])
    | none => Json.arr []
  some (serializeJson (mergeOps doc operands))

/-- rust_rocksdb::Direction. -/
inductive Direction where
  | forward : Direction
  | reverse : Direction
deriving DecidableEq, Repr

/-- One staged operation of the single write batch. -/
inductive BatchOp where
  | bput (cf : Option String) (key value : String) : BatchOp
  | bmerge (cf : Option String) (key value : String) : BatchOp
  | bdel (cf : Option String) (key : String) : BatchOp
deriving DecidableEq, Repr

/-- One operation staged inside the active transaction. -/
inductive TxnOp where
  | tput (cf : Option String) (key value : String) : TxnOp
  | tdel (cf : Option String) (key : String) : TxnOp
  | tmerge (cf : Option String) (key value : String) : TxnOp
deriving DecidableEq, Repr

/-- The persistent engine contents at db_path: the set of column
families, the keyed data ((cf?, key) to value) and the engine
properties ((cf?, name) to value). -/
structure DB where
  cfs : List String
  data : List ((Option String × String) × String)
  props : List ((Option String × String) × String)
deriving DecidableEq, Repr

/-- Engine point read (default CF when cf is none). -/
def dbGet (d : DB) (cf : Option String) (k : String) : Option String :=
  aget d.data (cf, k)

/-- Engine point write. -/
def dbPut (d : DB) (cf : Option String) (k v : String) : DB :=
  { d with data := aset d.data (cf, k) v }

/-- Engine point delete. -/
def dbDel (d : DB) (cf : Option String) (k : String) : DB :=
  { d with data := adel d.data (cf, k) }

/-- Engine merge: the registered json_merge operator collapses the
existing value with the operand. -/
def dbMerge (d : DB) (cf : Option String) (k v : String) : DB :=
  match json_merge (dbGet d cf k) [v] with
  | some out => dbPut d cf k out
  | none => d

/-- cf_handle lookup succeeds iff the named CF exists; a request with no
cf_name always targets the default CF. -/
def cfOk (d : DB) : Option String → Bool
  | none => true
  | some n => d.cfs.contains n

/-- The mutable state of RocksDBManager (db_manager.rs lines 79-88): the
open flag of the normal engine handle, the persisted contents, the
single write-batch slot, the iterators table (id to last-seen key and
direction), the monotonically increasing iterator id counter, and the
transactional-engine and transaction slots. -/
structure ManagerState where
  dbOpen : Bool
  disk : DB
  write_batch : Option (List BatchOp)
  iterators : List (Nat × (String × Direction))
  iterator_id_counter : Nat
  txn_db : Option Unit
  transaction : Option (List TxnOp)
deriving DecidableEq, Repr

/-- Outcome of one evaluation of a manager method body: either a
result with the post state, or a re-entry into the same body (the
condvar-wait-then-retry path) carrying the state it left behind. -/
inductive StepResult (α : Type) where
  | done (r : Except String α) (s : ManagerState) : StepResult α
  | retry (s : ManagerState) : StepResult α
deriving Repr

/-- RocksDBManager::put_in_db (db_manager.rs lines 147-164). -/
def put_in_db (s : ManagerState) (key value : String) (cf_name : Option String) :
    Except String Unit × ManagerState :=
  if s.dbOpen = false then (Except.error "Database is not open", s)
  else if cfOk s.disk cf_name then
    (Except.ok (), { s with disk := dbPut s.disk cf_name key value })
  else (Except.error "Column family not found", s)

/-- RocksDBManager::get_in_db (db_manager.rs lines 201-232): a missing
key falls back to the supplied default. -/
def get_in_db (s : ManagerState) (key : String) (cf_name default : Option String) :
    Except String (Option String) × ManagerState :=
  if s.dbOpen = false then (Except.error "Database is not open", s)
  else if cfOk s.disk cf_name then
    (Except.ok ((dbGet s.disk cf_name key).or default), s)
  else (Except.error "Column family not found", s)

/-- RocksDBManager::delete_in_db (db_manager.rs lines 258-271). -/
def delete_in_db (s : ManagerState) (key : String) (cf_name : Option String) :
    Except String Unit × ManagerState :=
  if s.dbOpen = false then (Except.error "Database is not open", s)
  else if cfOk s.disk cf_name then
    (Except.ok (), { s with disk := dbDel s.disk cf_name key })
  else (Except.error "Column family not found", s)

/-- RocksDBManager::put_in_transaction (db_manager.rs lines 121-145):
stages the write in the transaction; with a cf_name the transactional
engine handle and CF must exist. -/
def put_in_transaction (s : ManagerState) (key value : String) (cf_name : Option String) :
    Except String Unit × ManagerState :=
  match cf_name with
  | some cf =>
    match s.txn_db with
    | none => (Except.error "No active transaction DB", s)
    | some _ =>
      if s.disk.cfs.contains cf then
        (Except.ok (),
          { s with transaction :=
              s.transaction.map (fun ops => ops ++ [TxnOp.tput (some cf) key value]) })
      else (Except.error "Column family not found", s)
  | none =>
    (Except.ok (),
      { s with transaction := s.transaction.map (fun ops => ops ++ [TxnOp.tput none key value]) })

/-- RocksDBManager::get_in_transaction (db_manager.rs lines 166-199):
reads through the transaction (its staged writes over the snapshot),
falling back to the default. -/
def get_in_transaction (s : ManagerState) (key : String) (cf_name default : Option String) :
    Except String (Option String) × ManagerState :=
  let txnRead := fun (_ : Unit) =>
    let staged := (s.transaction.getD []).foldl
      (fun acc op =>
        match op with
        | TxnOp.tput cf k v => if cf = cf_name ∧ k = key then some (some v) else acc
        | TxnOp.tdel cf k => if cf = cf_name ∧ k = key then some none else acc
        | TxnOp.tmerge _ _ _ => acc)
      (none : Option (Option String))
    match staged with
    | some v => v
    | none => dbGet s.disk cf_name key
  match cf_name with
  | some cf =>
    match s.txn_db with
    | none => (Except.error "No active transaction DB", s)
    | some _ =>
      if s.disk.cfs.contains cf then
        (Except.ok ((txnRead ()).or default), s)
      else (Except.error "Column family not found", s)
  | none => (Except.ok ((txnRead ()).or default), s)

/-- RocksDBManager::put (db_manager.rs lines 482-521).  One evaluation
of the body: with the txn flag set and a live transaction it writes
through the transaction; with the flag set and no transaction the
condvar loop body is skipped (its guard `transaction_lock.is_some()` is
already false) and the method immediately re-invokes itself with the
same arguments while the transaction-mutex guard is still held, which
is the retry outcome with an unchanged state; otherwise it writes to
the open engine. -/
def putStep (key value : String) (cf_name : Option String) (txn : Option Bool)
    (s : ManagerState) : StepResult Unit :=
  if txn.getD false then
    match s.transaction with
    | some _ =>
      match put_in_transaction s key value cf_name with
      | (r, s2) => StepResult.done r s2
    | none => StepResult.retry s
  else
    if s.dbOpen = false then StepResult.done (Except.error "Database is not open") s
    else
      match put_in_db s key value cf_name with
      | (r, s2) => StepResult.done r s2

/-- Iterates putStep as the recursive self-call does, bounded by fuel;
none means no result was produced within the bound. -/
def runPut (fuel : Nat) (key value : String) (cf_name : Option String) (txn : Option Bool)
    (s : ManagerState) : Option (Except String Unit × ManagerState) :=
  match fuel with
  | 0 => none
  | Nat.succ n =>
    match putStep key value cf_name txn s with
    | StepResult.done r s2 => some (r, s2)
    | StepResult.retry s2 => runPut n key value cf_name txn s2

/-- RocksDBManager::get (db_manager.rs lines 523-561), same dispatch
shape as put. -/
def getStep (key : String) (cf_name default : Option String) (txn : Option Bool)
    (s : ManagerState) : StepResult (Option String) :=
  if txn.getD false then
    match s.transaction with
    | some _ =>
      match get_in_transaction s key cf_name default with
      | (r, s2) => StepResult.done r s2
    | none => StepResult.retry s
  else
    if s.dbOpen = false then StepResult.done (Except.error "Database is not open") s
    else
      match get_in_db s key cf_name default with
      | (r, s2) => StepResult.done r s2

/-- RocksDBManager::delete (db_manager.rs lines 563-601), same dispatch
shape as put. -/
def deleteStep (key : String) (cf_name : Option String) (txn : Option Bool)
    (s : ManagerState) : StepResult Unit :=
  if txn.getD false then
    match s.transaction with
    | some _ =>
      (fun p => StepResult.done p.1 p.2)
        (match cf_name with
          | some cf =>
            match s.txn_db with
            | none => (Except.error "Transaction database is not available", s)
            | some _ =>
              if s.disk.cfs.contains cf then
                (Except.ok (),
                  { s with transaction :=
                      s.transaction.map (fun ops => ops ++ [TxnOp.tdel (some cf) key]) })
              else (Except.error "Column family not found", s)
          | none =>
            (Except.ok (),
              { s with transaction := s.transaction.map (fun ops => ops ++ [TxnOp.tdel none key]) }))
    | none => StepResult.retry s
  else
    if s.dbOpen = false then StepResult.done (Except.error "Database is not open") s
    else
      match delete_in_db s key cf_name with
      | (r, s2) => StepResult.done r s2

/-- RocksDBManager::begin_transaction (db_manager.rs lines 384-416): one
evaluation of the body; while either slot is occupied it waits on the
condvar (retry), otherwise it closes the normal engine, opens the
transactional engine at the same path with the same CF descriptors, and
fills both slots. -/
def begin_transaction (s : ManagerState) : StepResult Unit :=
  if s.txn_db.isSome || s.transaction.isSome then StepResult.retry s
  else
    StepResult.done (Except.ok ())
      { s with dbOpen := false, txn_db := some (), transaction := some [] }

/-- RocksDBManager::get_property (db_manager.rs lines 646-668): forwards
an engine property query under the optional CF. -/
def get_property (s : ManagerState) (property : String) (cf_name : Option String) :
    Except String (Option String) × ManagerState :=
  if s.dbOpen = false then (Except.error "Database is not open", s)
  else if cfOk s.disk cf_name then (Except.ok (aget s.disk.props (cf_name, property)), s)
  else (Except.error "Column family not found", s)

/-- RocksDBManager::create_column_family (db_manager.rs lines 778-797):
an existing CF is an immediate Ok with nothing touched. -/
def create_column_family (s : ManagerState) (cf_name : String) :
    Except String Unit × ManagerState :=
  if s.dbOpen = false then (Except.error "Database is not open", s)
  else if s.disk.cfs.contains cf_name then (Except.ok (), s)
  else (Except.ok (), { s with disk := { s.disk with cfs := s.disk.cfs ++ [cf_name] } })

/-- RocksDBManager::drop_column_family (db_manager.rs lines 799-816): an
absent CF is an immediate Ok with nothing touched. -/
def drop_column_family (s : ManagerState) (cf_name : String) :
    Except String Unit × ManagerState :=
  if s.dbOpen = false then (Except.error "Database is not open", s)
  else if s.disk.cfs.contains cf_name then
    (Except.ok (),
      { s with disk :=
          { s.disk with
            cfs := s.disk.cfs.filter (fun n => decide (n ≠ cf_name)),
            data := s.disk.data.filter (fun p => decide (p.1.1 ≠ some cf_name)) } })
  else (Except.ok (), s)

/-- RocksDBManager::write_batch_put (db_manager.rs lines 853-897): the
engine must be open, then the batch slot must hold a batch, then the CF
must resolve; the op is staged. -/
def write_batch_put (s : ManagerState) (key value : String) (cf_name : Option String) :
    Except String Unit × ManagerState :=
  if s.dbOpen = false then (Except.error "Database is not open", s)
  else
    match s.write_batch with
    | none => (Except.error "WriteBatch not initialized", s)
    | some wb =>
      if cfOk s.disk cf_name then
        (Except.ok (), { s with write_batch := some (wb ++ [BatchOp.bput cf_name key value]) })
      else (Except.error "Column family not found", s)

/-- Applies the staged batch ops to the engine in order (the engine's
atomic batch commit). -/
def applyBatch (d : DB) : List BatchOp → DB
  | [] => d
  | BatchOp.bput cf k v :: r => applyBatch (dbPut d cf k v) r
  | BatchOp.bmerge cf k v :: r => applyBatch (dbMerge d cf k v) r
  | BatchOp.bdel cf k :: r => applyBatch (dbDel d cf k) r

/-- RocksDBManager::write_batch_write (db_manager.rs lines 985-1009):
the slot is taken; on engine-commit success a fresh empty batch is
installed; an engine-commit error propagates through the question-mark
operator before any batch is reinstalled, leaving the slot empty.  The
engine commit outcome (opaque to the model) is the first argument. -/
def write_batch_write (engineWrite : Except String Unit) (s : ManagerState) :
    Except String Unit × ManagerState :=
  if s.dbOpen = false then (Except.error "Database is not open", s)
  else
    match s.write_batch with
    | some wb =>
      match engineWrite with
      | Except.ok _ =>
        (Except.ok (), { s with disk := applyBatch s.disk wb, write_batch := some [] })
      | Except.error e => (Except.error e, { s with write_batch := none })
    | none => (Except.error "WriteBatch not initialized", s)

/-- RocksDBManager::write_batch_clear (db_manager.rs lines 1011-1026):
empties the batch in place; no engine-open check is made. -/
def write_batch_clear (s : ManagerState) : Except String Unit × ManagerState :=
  match s.write_batch with
  | some _ => (Except.ok (), { s with write_batch := some [] })
  | none => (Except.error "WriteBatch not initialized", s)

/-- RocksDBManager::write_batch_destroy (db_manager.rs lines 1028-1036):
unconditionally empties the slot and returns Ok. -/
def write_batch_destroy (s : ManagerState) : Except String Unit × ManagerState :=
  (Except.ok (), { s with write_batch := none })

/-- The default-CF entries in engine key order, as iterated by
db.iterator. -/
def defaultEntries (d : DB) : List (String × String) :=
  d.data.filterMap (fun p =>
    match p.1.1 with
    | none => some (p.1.2, p.2)
    | some _ => none)

/-- Byte order on UTF-8 keys (codepoint order coincides with memcmp
order for UTF-8). -/
def charListLe : List Char → List Char → Bool
  | [], _ => true
  | _ :: _, [] => false
  | a :: ar, b :: br => if a = b then charListLe ar br else decide (a.toNat ≤ b.toNat)

/-- Byte order on keys as the engine compares them. -/
def strLe (a b : String) : Bool :=
  charListLe a.data b.data

/-- The engine iterator opened at IteratorMode::From(key, direction):
the first entry at or after the key going forward, or at or before it
going backward. -/
def seekFrom (d : DB) (key : String) : Direction → Option (String × String)
  | Direction.forward => ((defaultEntries d).filter (fun p => strLe key p.1)).head?
  | Direction.reverse => ((defaultEntries d).filter (fun p => strLe p.1 key)).getLast?

/-- RocksDBManager::create_iterator (db_manager.rs lines 1038-1047). -/
def create_iterator (s : ManagerState) : Except String Nat × ManagerState :=
  (Except.ok s.iterator_id_counter,
    { s with
      iterators := aset s.iterators s.iterator_id_counter ("", Direction.forward),
      iterator_id_counter := s.iterator_id_counter + 1 })

/-- RocksDBManager::iterator_seek (db_manager.rs lines 1062-1108): with
an entry found, the cursor is moved to its key with the requested
direction and "k:v" is returned; with no entry, the literal
"invalid:invalid" is returned and the cursor is not written. -/
def iterator_seek (s : ManagerState) (iterator_id : Nat) (key : String)
    (direction : Direction) : Except String String × ManagerState :=
  if s.dbOpen = false then (Except.error "Database is not open", s)
  else
    match aget s.iterators iterator_id with
    | none => (Except.error "Iterator ID not found", s)
    | some _ =>
      match seekFrom s.disk key direction with
      | some (k, v) =>
        (Except.ok (k ++ ":" ++ v),
          { s with iterators := aset s.iterators iterator_id (k, direction) })
      | none => (Except.ok "invalid:invalid", s)

/-- The JSON response envelope (server.rs lines 29-34). -/
structure Response where
  success : Bool
  result : Option String
  error : Option String
deriving DecidableEq, Repr

/-- RocksDBServer::handle_get (server.rs lines 222-251): an Ok-present
value succeeds with the value, an Ok-absent value fails with "Key not
found", an error is forwarded; a request whose manager call never
returns (the blocked transactional path) produces no response. -/
def handle_get (key cf_name default : Option String) (txn : Option Bool)
    (s : ManagerState) : Option (Response × ManagerState) :=
  match key with
  | some k =>
    match getStep k cf_name default txn s with
    | StepResult.done (Except.ok (some value)) s2 =>
      some ({ success := true, result := some value, error := none }, s2)
    | StepResult.done (Except.ok none) s2 =>
      some ({ success := false, result := none, error := some "Key not found" }, s2)
    | StepResult.done (Except.error e) s2 =>
      some ({ success := false, result := none, error := some e }, s2)
    | StepResult.retry _ => none
  | none => some ({ success := false, result := none, error := some "Missing key" }, s)

/-- RocksDBServer::handle_get_property (server.rs lines 358-379): the
request's value field names the property; an Ok outcome is answered
with success and an empty result field (the fetched value is
discarded by the `Ok(_)` arm), an error is forwarded. -/
def handle_get_property (value cf_name : Option String) (s : ManagerState) :
    Response × ManagerState :=
  match value with
  | some v =>
    match get_property s v cf_name with
    | (Except.ok _, s2) => ({ success := true, result := none, error := none }, s2)
    | (Except.error e, s2) => ({ success := false, result := none, error := some e }, s2)
  | none => ({ success := false, result := none, error := some "Missing property" }, s)

/-- RocksDBServer::handle_write_batch_destroy (server.rs lines 835-849). -/
def handle_write_batch_destroy (s : ManagerState) : Response × ManagerState :=
  match write_batch_destroy s with
  | (Except.ok _, s2) => ({ success := true, result := none, error := none }, s2)
  | (Except.error _, s2) =>
    ({ success := false, result := none, error := some "WriteBatch not initialized" }, s2)

/-- A drain-queue task (cache/queue, spec section 4.3). -/
inductive QTask where
  | qput (key value : String) (cf : Option String) : QTask
  | qdel (key : String) (cf : Option String) : QTask
deriving DecidableEq, Repr

/-- CacheLayer (cache/cache.rs lines 11-16): the (key, cf) map and the
enabled flag.  The per-entry expiry instant is real time and is kept
out of the model: get and put never test it (get only refreshes it),
only the 60-second sweep task evicts. -/
structure CacheLayer where
  data : List ((String × Option String) × String)
  enabled : Bool
deriving DecidableEq, Repr

/-- CacheLayer::get (cache/cache.rs lines 50-63): disabled means absent;
a present entry has its expiry refreshed and its value returned. -/
def cache_get (c : CacheLayer) (key : String) (cf_name : Option String) : Option String :=
  if c.enabled = false then none
  else aget c.data (key, cf_name)

/-- CacheLayer::put (cache/cache.rs lines 65-75): when enabled, writes
the entry and enqueues a durable Put task; when disabled, does nothing. -/
def cache_put (c : CacheLayer) (key value : String) (cf_name : Option String) :
    CacheLayer × List QTask :=
  if c.enabled then
    ({ c with data := aset c.data (key, cf_name) value }, [QTask.qput key value cf_name])
  else (c, [])

/-- The dispatcher-with-cache state: the engine manager, the cache layer
and the pending drain queue. -/
structure ServerState where
  mgr : ManagerState
  cache : CacheLayer
  queue : List QTask
deriving DecidableEq, Repr

/-- Modelled from the spec: the cache-integrated dispatcher put handler
is not present under src/ (src server.rs carries no cache field);
following sections 4.3 and 5 of the specification, handle_put always
populates the cache first (a no-op when disabled) and writes through
the engine manager synchronously only when the cache is disabled. -/
def server_put (st : ServerState) (key value : String) (cf_name : Option String) :
    Response × ServerState :=
  let p := cache_put st.cache key value cf_name
  let st2 : ServerState := { st with cache := p.1, queue := st.queue ++ p.2 }
  if st.cache.enabled then ({ success := true, result := none, error := none }, st2)
  else
    match putStep key value cf_name none st.mgr with
    | StepResult.done (Except.ok _) m2 =>
      ({ success := true, result := none, error := none }, { st2 with mgr := m2 })
    | StepResult.done (Except.error e) m2 =>
      ({ success := false, result := none, error := some e }, { st2 with mgr := m2 })
    | StepResult.retry m2 =>
      ({ success := false, result := none, error := none }, { st2 with mgr := m2 })

/-- Modelled from the spec: the cache-integrated dispatcher get handler
is not present under src/; following sections 4.3 and 5, gets go
cache-first, then to the engine with a cache write-back on an engine
hit; engine misses and errors are wrapped as in src server.rs
handle_get. -/
def server_get (st : ServerState) (key : String) (cf_name default : Option String) :
    Response × ServerState :=
  match cache_get st.cache key cf_name with
  | some v => ({ success := true, result := some v, error := none }, st)
  | none =>
    match getStep key cf_name default none st.mgr with
    | StepResult.done (Except.ok (some v)) m2 =>
      let p := cache_put st.cache key v cf_name
      ({ success := true, result := some v, error := none },
        { mgr := m2, cache := p.1, queue := st.queue ++ p.2 })
    | StepResult.done (Except.ok none) m2 =>
      ({ success := false, result := none, error := some "Key not found" }, { st with mgr := m2 })
    | StepResult.done (Except.error e) m2 =>
      ({ success := false, result := none, error := some e }, { st with mgr := m2 })
    | StepResult.retry m2 =>
      ({ success := false, result := none, error := none }, { st with mgr := m2 })

/-- A freshly started manager over a one-CF store: engine open, the
startup write batch installed, no iterators, both transaction slots
free. -/
def baseMgr : ManagerState :=
  ⟨true, ⟨["default"], [], []⟩, some [], [], 0, none, none⟩

/-- Dispatcher state with the cache disabled. -/
def srvDisabled : ServerState :=
  ⟨baseMgr, ⟨[], false⟩, []⟩

/-- Dispatcher state with the cache enabled and empty. -/
def srvEnabled : ServerState :=
  ⟨baseMgr, ⟨[], true⟩, []⟩

/-- Manager state holding one staged batch write. -/
def batchMgr : ManagerState :=
  ⟨true, ⟨["default"], [], []⟩, some [BatchOp.bput none "k" "v"], [], 0, none, none⟩

/-- The state produced by a successful begin_transaction on baseMgr. -/
def txnMgr : ManagerState :=
  ⟨false, ⟨["default"], [], []⟩, some [], [], 0, some (), some []⟩

/-- Manager state with one engine property set on the default CF. -/
def propMgr : ManagerState :=
  ⟨true, ⟨["default"], [], [((none, "rocksdb.estimate-num-keys"), "42")]⟩, some [], [], 0, none, none⟩

/-- Manager state with one data entry under key "a" and one live
iterator with id 0. -/
def iterMgr : ManagerState :=
  ⟨true, ⟨["default"], [((none, "a"), "1")], []⟩, some [], [(0, ("", Direction.forward))], 1, none, none⟩

/-- The spec scenario operand: one add-to-end-of-array patch operation. -/
def c3operand : String :=
  "[\x7b\"op\":\"add\",\"path\":\"/-\",\"value\":1\x7d]"

/-- An operand that deserializes but whose patch fails on the empty
array (remove at index 5). -/
def c3failing : String :=
  "[\x7b\"op\":\"remove\",\"path\":\"/5\"\x7d]"

theorem aget_aset_self {α β : Type} [DecidableEq α] (l : List (α × β)) (a : α) (b : β) :
    aget (aset l a b) a = some b := by
  simp [aset, aget]

theorem aget_adel_self {α β : Type} [DecidableEq α] (l : List (α × β)) (a : α) :
    aget (adel l a) a = none := by
  induction l with
  | nil => rfl
  | cons p t ih =>
    by_cases h : p.1 = a
    · simpa [adel, List.filter_cons, h] using ih
    · simpa [adel, List.filter_cons, h, aget] using ih

/-- Claim C7: create_column_family returns success and leaves the state
(hence the set of column families) unchanged when the CF already
exists, and drop_column_family returns success and leaves the state
unchanged when the CF is absent. -/
theorem cf_create_drop_idempotent (s : ManagerState) (c : String)
    (hopen : s.dbOpen = true) :
    (s.disk.cfs.contains c = true → create_column_family s c = (Except.ok (), s)) ∧
    (s.disk.cfs.contains c = false → drop_column_family s c = (Except.ok (), s)) := by
  constructor
  · intro hc
    have hc2 : c ∈ s.disk.cfs := by simpa using hc
    simp [create_column_family, hopen, hc2]
  · intro hc
    have hc2 : c ∉ s.disk.cfs := by simpa using hc
    simp [drop_column_family, hopen, hc2]

theorem cf_create_drop_idempotent_witness :
    (baseMgr.disk.cfs.contains "default" = true ∧
      create_column_family baseMgr "default" = (Except.ok (), baseMgr)) ∧
    (baseMgr.disk.cfs.contains "other" = false ∧
      drop_column_family baseMgr "other" = (Except.ok (), baseMgr)) :=
  ⟨⟨rfl, (cf_create_drop_idempotent baseMgr "default" rfl).1 rfl⟩,
   ⟨rfl, (cf_create_drop_idempotent baseMgr "other" rfl).2 rfl⟩⟩

/-- Claim C9: write_batch_destroy always returns Ok — also when the
slot is already empty — and the dispatcher answers success both times,
so destroy is idempotent at the public interface. -/
theorem write_batch_destroy_idempotent (s : ManagerState) :
    (write_batch_destroy s).1 = Except.ok () ∧
    ((write_batch_destroy s).2).write_batch = none ∧
    write_batch_destroy ((write_batch_destroy s).2) = (Except.ok (), (write_batch_destroy s).2) ∧
    (handle_write_batch_destroy s).1 = { success := true, result := none, error := none } ∧
    (handle_write_batch_destroy ((write_batch_destroy s).2)).1 =
      { success := true, result := none, error := none } :=
  ⟨rfl, rfl, rfl, rfl, rfl⟩

/-- Claim C10: an iterator_seek on a live iterator id that finds no
entry at or beyond the key returns the literal "invalid:invalid" and
leaves the whole manager state — in particular the stored position and
direction of that cursor and of every other cursor — unchanged. -/
theorem iterator_seek_invalid_frame (s : ManagerState) (id : Nat) (key : String)
    (dir : Direction) (cur : String × Direction)
    (hopen : s.dbOpen = true)
    (hid : aget s.iterators id = some cur)
    (hmiss : seekFrom s.disk key dir = none) :
    iterator_seek s id key dir = (Except.ok "invalid:invalid", s) := by
  simp [iterator_seek, hopen, hid, hmiss]

theorem iterator_seek_invalid_frame_witness :
    aget iterMgr.iterators 0 = some ("", Direction.forward) ∧
    seekFrom iterMgr.disk "b" Direction.forward = none ∧
    iterator_seek iterMgr 0 "b" Direction.forward = (Except.ok "invalid:invalid", iterMgr) :=
  ⟨rfl, rfl,
    iterator_seek_invalid_frame iterMgr 0 "b" Direction.forward ("", Direction.forward) rfl rfl rfl⟩

/-- Claim C8: on the get_property action the engine-level query
succeeds with a value, yet the dispatcher answers success with an empty
result field — the fetched property value is discarded by the Ok arm
instead of being forwarded. -/
theorem get_property_drops_value :
    get_property propMgr "rocksdb.estimate-num-keys" none = (Except.ok (some "42"), propMgr) ∧
    handle_get_property (some "rocksdb.estimate-num-keys") none propMgr =
      ({ success := true, result := none, error := none }, propMgr) :=
  ⟨rfl, rfl⟩

/-- Claim C5: a put with the txn flag set while no transaction is
active does not wait (the condvar loop guard is already false) and
re-enters its own body with the state unchanged, so no number of
iterations ever produces a result — the call never terminates and in
the running code the immediate re-entry deadlocks on the still-held
transaction mutex. -/
theorem put_txn_no_slot_diverges :
    putStep "k" "v" none (some true) baseMgr = StepResult.retry baseMgr ∧
    ∀ fuel : Nat, runPut fuel "k" "v" none (some true) baseMgr = none := by
  constructor
  · rfl
  · intro fuel
    induction fuel with
    | zero => rfl
    | succ n ih => simpa [runPut, putStep, baseMgr] using ih

/-- Claim C2 counterexample: when the engine write fails, the batch
slot — taken before the commit — is left empty after write_batch_write
returns, and the very next write_batch_put fails with "WriteBatch not
initialized", contradicting the claim that a batch still exists after
every return of write_batch_write. -/
theorem write_batch_write_err_cex :
    (write_batch_write (Except.error "IO error: no space left on device") batchMgr).1 =
      Except.error "IO error: no space left on device" ∧
    ((write_batch_write (Except.error "IO error: no space left on device") batchMgr).2).write_batch
      = none ∧
    (write_batch_put
      ((write_batch_write (Except.error "IO error: no space left on device") batchMgr).2)
      "a" "b" none).1 = Except.error "WriteBatch not initialized" :=
  ⟨rfl, rfl, rfl⟩

/-- Claim C2 (amended): on a successful write_batch_write the committed
batch is replaced by a fresh empty one, so a write batch still exists
and subsequent staging succeeds; but when the engine write fails the
taken batch is not reinstated — the slot is left empty and a subsequent
write_batch_put fails with "WriteBatch not initialized" until a
write_batch_write-success or restart reinstalls one. -/
theorem write_batch_write_slot (s : ManagerState) (wb : List BatchOp) (e : String)
    (hopen : s.dbOpen = true) (hwb : s.write_batch = some wb) :
    (write_batch_write (Except.ok ()) s).1 = Except.ok () ∧
    ((write_batch_write (Except.ok ()) s).2).write_batch = some [] ∧
    (write_batch_put ((write_batch_write (Except.ok ()) s).2) "a" "b" none).1 = Except.ok () ∧
    (write_batch_write (Except.error e) s).1 = Except.error e ∧
    ((write_batch_write (Except.error e) s).2).write_batch = none ∧
    (write_batch_put ((write_batch_write (Except.error e) s).2) "a" "b" none).1 =
      Except.error "WriteBatch not initialized" := by
  refine ⟨?_, ?_, ?_, ?_, ?_, ?_⟩ <;>
    simp [write_batch_write, write_batch_put, hopen, hwb, cfOk]

theorem write_batch_write_slot_witness :
    batchMgr.dbOpen = true ∧ batchMgr.write_batch = some [BatchOp.bput none "k" "v"] ∧
    ((write_batch_write (Except.ok ()) batchMgr).2).write_batch = some [] ∧
    ((write_batch_write (Except.error "x") batchMgr).2).write_batch = none :=
  ⟨rfl, rfl,
    (write_batch_write_slot batchMgr [BatchOp.bput none "k" "v"] "x" rfl rfl).2.1,
    (write_batch_write_slot batchMgr [BatchOp.bput none "k" "v"] "x" rfl rfl).2.2.2.2.1⟩

/-- Claim C4: once begin_transaction has succeeded the normal engine is
closed, so while the transaction is active any put or get arriving with
the txn flag false (or absent) fails with "Database is not open" and
returns the state unchanged. -/
theorem txn_blocks_non_txn_ops (s s2 : ManagerState) (k v : String) (cf d : Option String)
    (h : begin_transaction s = StepResult.done (Except.ok ()) s2) :
    s2.dbOpen = false ∧ s2.transaction.isSome = true ∧
    putStep k v cf (some false) s2 = StepResult.done (Except.error "Database is not open") s2 ∧
    putStep k v cf none s2 = StepResult.done (Except.error "Database is not open") s2 ∧
    getStep k cf d (some false) s2 = StepResult.done (Except.error "Database is not open") s2 ∧
    getStep k cf d none s2 = StepResult.done (Except.error "Database is not open") s2 := by
  by_cases hb : s.txn_db.isSome || s.transaction.isSome
  · rw [begin_transaction] at h
    simp [hb] at h
  · rw [begin_transaction] at h
    simp [hb] at h
    subst h
    refine ⟨rfl, rfl, ?_, ?_, ?_, ?_⟩ <;> rfl

theorem txn_blocks_non_txn_ops_witness :
    begin_transaction baseMgr = StepResult.done (Except.ok ()) txnMgr ∧
    putStep "k" "v" none (some false) txnMgr =
      StepResult.done (Except.error "Database is not open") txnMgr ∧
    getStep "k" none none (some false) txnMgr =
      StepResult.done (Except.error "Database is not open") txnMgr :=
  ⟨rfl,
    (txn_blocks_non_txn_ops baseMgr txnMgr "k" "v" none none rfl).2.2.1,
    (txn_blocks_non_txn_ops baseMgr txnMgr "k" "v" none none rfl).2.2.2.2.1⟩

/-- Claim C6: a get request carrying no default for a key that is
absent — never inserted, or just deleted by a successful delete —
is answered with success false and the error "Key not found". -/
theorem absent_key_get_not_found (s : ManagerState) (k : String) (cf : Option String)
    (hopen : s.dbOpen = true) (hcf : cfOk s.disk cf = true) :
    (dbGet s.disk cf k = none →
      handle_get (some k) cf none none s =
        some ({ success := false, result := none, error := some "Key not found" }, s)) ∧
    (∀ s2, deleteStep k cf none s = StepResult.done (Except.ok ()) s2 →
      handle_get (some k) cf none none s2 =
        some ({ success := false, result := none, error := some "Key not found" }, s2)) := by
  constructor
  · intro hget
    simp [handle_get, getStep, get_in_db, hopen, hcf, hget]
  · intro s2 hdel
    rw [deleteStep.eq_def] at hdel
    cases cf with
    | none =>
      simp [delete_in_db, hopen, cfOk] at hdel
      subst hdel
      simp [handle_get, getStep, get_in_db, hopen, cfOk, dbGet, dbDel, aget_adel_self]
    | some c =>
      have hc : c ∈ s.disk.cfs := by simpa [cfOk] using hcf
      simp [delete_in_db, hopen, cfOk, hc] at hdel
      subst hdel
      simp [handle_get, getStep, get_in_db, hopen, cfOk, hc, dbGet, dbDel, aget_adel_self]

theorem absent_key_get_not_found_witness :
    dbGet baseMgr.disk none "ghost" = none ∧
    handle_get (some "ghost") none none none baseMgr =
      some ({ success := false, result := none, error := some "Key not found" }, baseMgr) :=
  ⟨rfl, (absent_key_get_not_found baseMgr "ghost" none rfl rfl).1 rfl⟩

theorem cfOk_dbPut (d : DB) (cf0 cf : Option String) (k v : String) :
    cfOk (dbPut d cf0 k v) cf = cfOk d cf := by
  cases cf <;> rfl

theorem dbGet_dbPut_self (d : DB) (cf : Option String) (k v : String) :
    dbGet (dbPut d cf k v) cf k = some v := by
  simp [dbGet, dbPut, aget_aset_self]

/-- Claim C1: whenever server put succeeds — with the cache enabled
(answered from the cache) or disabled (written through the engine) — an
immediately following get for the same key and column family with no
default answers success with exactly that value. -/
theorem put_get_roundtrip (st : ServerState) (k v : String) (cf : Option String)
    (hsucc : (server_put st k v cf).1.success = true) :
    (server_get ((server_put st k v cf).2) k cf none).1 =
      { success := true, result := some v, error := none } := by
  by_cases hen : st.cache.enabled = true
  · simp [server_put, cache_put, hen, server_get, cache_get, aget_aset_self]
  · have hen2 : st.cache.enabled = false := by simpa using hen
    by_cases hdb : st.mgr.dbOpen = true
    · by_cases hcf : cfOk st.mgr.disk cf = true
      · simp [server_put, cache_put, hen2, putStep, put_in_db, hdb, hcf]
        simp [server_get, cache_get, hen2, getStep, get_in_db, hdb, hcf,
          cfOk_dbPut, dbGet_dbPut_self]
      · have hcf2 : cfOk st.mgr.disk cf = false := by simpa using hcf
        simp [server_put, cache_put, hen2, putStep, put_in_db, hdb, hcf2] at hsucc
    · have hdb2 : st.mgr.dbOpen = false := by simpa using hdb
      simp [server_put, cache_put, hen2, putStep, hdb2] at hsucc

theorem put_get_roundtrip_witness :
    ((server_put srvDisabled "k" "v" none).1.success = true ∧
      (server_get ((server_put srvDisabled "k" "v" none).2) "k" none none).1 =
        { success := true, result := some "v", error := none }) ∧
    ((server_put srvEnabled "k" "v" none).1.success = true ∧
      (server_get ((server_put srvEnabled "k" "v" none).2) "k" none none).1 =
        { success := true, result := some "v", error := none }) :=
  ⟨⟨rfl, put_get_roundtrip srvDisabled "k" "v" none rfl⟩,
   ⟨rfl, put_get_roundtrip srvEnabled "k" "v" none rfl⟩⟩

/-- Claim C3: json_merge treats an absent or non-JSON existing value as
the empty array, applies each operand's patch list in order (a
successful operand advances the document, a failing operand is skipped
leaving the document exactly as it was, an undeserializable operand is
skipped), and returns the serialized final document; in particular two
add-to-end operands on an absent key produce the stored value [1,1]. -/
theorem json_merge_spec :
    (∀ (val : String) (ops : List String), parseJson val = none →
        json_merge (some val) ops = json_merge none ops) ∧
    (∀ ops : List String,
        json_merge none ops = some (serializeJson (mergeOps (Json.arr []) ops))) ∧
    (∀ (doc : Json) (op : String) (rest : List String) (ops : List PatchOp) (d2 : Json),
        parseOperand op = some ops → applyPatch doc ops = some d2 →
        mergeOps doc (op :: rest) = mergeOps d2 rest) ∧
    (∀ (doc : Json) (op : String) (rest : List String) (ops : List PatchOp),
        parseOperand op = some ops → applyPatch doc ops = none →
        mergeOps doc (op :: rest) = mergeOps doc rest) ∧
    (∀ (doc : Json) (op : String) (rest : List String),
        parseOperand op = none → mergeOps doc (op :: rest) = mergeOps doc rest) ∧
    json_merge none [c3operand, c3operand] = some "[1,1]" := by
  refine ⟨?_, ?_, ?_, ?_, ?_, ?_⟩
  · intro val ops h
    simp [json_merge, h]
  · intro ops
    rfl
  · intro doc op rest ops d2 h1 h2
    simp [mergeOps, h1, h2]
  · intro doc op rest ops h1 h2
    simp [mergeOps, h1, h2]
  · intro doc op rest h1
    simp [mergeOps, h1]
  · rfl

theorem json_merge_spec_witness :
    parseJson "oops" = none ∧
    json_merge (some "oops") [c3operand] = json_merge none [c3operand] ∧
    parseOperand c3operand = some [PatchOp.add ["-"] (Json.num 1)] ∧
    applyPatch (Json.arr []) [PatchOp.add ["-"] (Json.num 1)] = some (Json.arr [Json.num 1]) ∧
    mergeOps (Json.arr []) [c3operand] = mergeOps (Json.arr [Json.num 1]) [] ∧
    parseOperand c3failing = some [PatchOp.remove ["5"]] ∧
    applyPatch (Json.arr []) [PatchOp.remove ["5"]] = none ∧
    mergeOps (Json.arr []) [c3failing] = mergeOps (Json.arr []) [] ∧
    parseOperand "nope" = none ∧
    mergeOps (Json.arr []) ["nope"] = mergeOps (Json.arr []) [] :=
  ⟨rfl, json_merge_spec.1 "oops" [c3operand] rfl,
   rfl, rfl,
   json_merge_spec.2.2.1 (Json.arr []) c3operand []
     [PatchOp.add ["-"] (Json.num 1)] (Json.arr [Json.num 1]) rfl rfl,
   rfl, rfl,
   json_merge_spec.2.2.2.1 (Json.arr []) c3failing [] [PatchOp.remove ["5"]] rfl rfl,
   rfl,
   json_merge_spec.2.2.2.2.1 (Json.arr []) "nope" [] rfl⟩
